import Mathlib

/-!
Verification development for the `mcp-unhcrtheme` chart-proxy server
(`main.py` and `mcp_fastapi_chart/server.py`).

The program is a thin proxy: it validates a chart request (a pydantic
`BaseModel`), issues one HTTP POST to a remote chart service, and
repackages the HTTP response (image bytes or error text) into a
tool-call response.  We embed that logic shallowly:

* bytes are `Nat`s below 256, byte strings are `List Nat`;
* the outcome of the single `httpx` call is an oracle value
  (`HttpOutcome`): a response, a `ConnectError`, or any other exception;
* Python's try/except structure becomes an `Except PyExn` computation
  whose error paths are caught by the surrounding handlers;
* the outbound HTTP requests issued during a call are collected in a
  trace so that "exactly one POST, no retry" is a statement about the
  embedding.
-/

/-- The base64 alphabet used by Python's `base64.b64encode`. -/
def b64Chars : List Char :=
  "ABCDEFGHIJKLMNOPQRSTUVWXYZabcdefghijklmnopqrstuvwxyz0123456789+/".toList

/-- The character standing for a 6-bit group (out-of-range groups never
occur; they default to the first alphabet letter). -/
def encChar (n : Nat) : Char := b64Chars.getD n 'A'

/-- The 6-bit group a base64 character stands for. -/
def decChar (c : Char) : Nat := b64Chars.findIdx (fun d => d == c)

/-- Split a byte string into 6-bit groups, as `base64.b64encode` does
before the alphabet lookup: every 3 bytes give 4 groups, a trailing
byte gives 2 groups, two trailing bytes give 3. -/
def toSextets : List Nat → List Nat
  | [] => []
  | [a] => [a / 4, (a % 4) * 16]
  | [a, b] => [a / 4, (a % 4) * 16 + b / 16, (b % 16) * 4]
  | a :: b :: c :: r =>
      [a / 4, (a % 4) * 16 + b / 16, (b % 16) * 4 + c / 64, c % 64] ++ toSextets r

/-- Reassemble bytes from 6-bit groups, as `base64.b64decode` does after
stripping padding: 4 groups give 3 bytes, 3 groups give 2, 2 give 1. -/
def fromSextets : List Nat → List Nat
  | [s0, s1] => [s0 * 4 + s1 / 16]
  | [s0, s1, s2] => [s0 * 4 + s1 / 16, (s1 % 16) * 16 + s2 / 4]
  | s0 :: s1 :: s2 :: s3 :: r =>
      [s0 * 4 + s1 / 16, (s1 % 16) * 16 + s2 / 4, (s2 % 4) * 64 + s3] ++ fromSextets r
  | _ => []

/-- `base64.b64encode(bs).decode('utf-8')`: alphabet characters for the
6-bit groups followed by `'='` padding to a multiple of four. -/
def b64encodeBytes (bs : List Nat) : String :=
  ⟨(toSextets bs).map encChar ++ List.replicate ((3 - bs.length % 3) % 3) '='⟩

/-- `base64.b64decode`: drop padding, map characters back to 6-bit
groups, reassemble bytes. -/
def b64decodeString (s : String) : List Nat :=
  fromSextets ((s.data.filter (fun c => c != '=')).map decChar)

theorem decChar_encChar : ∀ n : Fin 64, decChar (encChar n.val) = n.val := by decide

theorem encChar_ne_eq : ∀ n : Fin 64, (encChar n.val != '=') = true := by decide

theorem toSextets_lt : ∀ bs : List Nat, (∀ x ∈ bs, x < 256) →
    ∀ s ∈ toSextets bs, s < 64
  | [], _, s, hs => by simp [toSextets] at hs
  | [a], h, s, hs => by
      have ha : a < 256 := h a (by simp)
      simp [toSextets] at hs
      rcases hs with h1 | h1 <;> omega
  | [a, b], h, s, hs => by
      have ha : a < 256 := h a (by simp)
      have hb : b < 256 := h b (by simp)
      simp [toSextets] at hs
      rcases hs with h1 | h1 | h1 <;> omega
  | a :: b :: c :: r, h, s, hs => by
      have ha : a < 256 := h a (by simp)
      have hb : b < 256 := h b (by simp)
      have hc : c < 256 := h c (by simp)
      have hr : ∀ x ∈ r, x < 256 := fun x hx => h x (by simp [hx])
      simp [toSextets] at hs
      rcases hs with h1 | h1 | h1 | h1 | h1
      · omega
      · omega
      · omega
      · omega
      · exact toSextets_lt r hr s h1

theorem fromSextets_toSextets : ∀ bs : List Nat, (∀ x ∈ bs, x < 256) →
    fromSextets (toSextets bs) = bs
  | [], _ => rfl
  | [a], h => by
      have ha : a < 256 := h a (by simp)
      simp [toSextets, fromSextets]
      omega
  | [a, b], h => by
      have ha : a < 256 := h a (by simp)
      have hb : b < 256 := h b (by simp)
      simp [toSextets, fromSextets]
      constructor <;> omega
  | a :: b :: c :: r, h => by
      have ha : a < 256 := h a (by simp)
      have hb : b < 256 := h b (by simp)
      have hc : c < 256 := h c (by simp)
      have ih := fromSextets_toSextets r (fun x hx => h x (by simp [hx]))
      simp [toSextets, fromSextets, ih]
      refine ⟨by omega, by omega, by omega⟩

theorem b64_roundtrip (bs : List Nat) (h : ∀ x ∈ bs, x < 256) :
    b64decodeString (b64encodeBytes bs) = bs := by
  have hs := toSextets_lt bs h
  have hfilter :
      ((toSextets bs).map encChar ++
        List.replicate ((3 - bs.length % 3) % 3) '=').filter (fun c => c != '=') =
      (toSextets bs).map encChar := by
    rw [List.filter_append]
    have h1 : ((toSextets bs).map encChar).filter (fun c => c != '=') =
        (toSextets bs).map encChar := by
      apply List.filter_eq_self.mpr
      intro c hc
      rcases List.mem_map.mp hc with ⟨s, hsmem, rfl⟩
      exact encChar_ne_eq ⟨s, hs s hsmem⟩
    have h2 : (List.replicate ((3 - bs.length % 3) % 3) '=').filter
        (fun c => c != '=') = [] := by
      apply List.filter_eq_nil_iff.mpr
      intro c hc
      simp [List.eq_of_mem_replicate hc]
    rw [h1, h2, List.append_nil]
  have hmap : ((toSextets bs).map encChar).map decChar = toSextets bs := by
    rw [List.map_map]
    have hpt : ∀ s ∈ toSextets bs, (decChar ∘ encChar) s = id s := by
      intro s hsmem
      exact decChar_encChar ⟨s, hs s hsmem⟩
    rw [List.map_congr_left hpt, List.map_id]
  have hopen : b64decodeString (b64encodeBytes bs) =
      fromSextets ((((toSextets bs).map encChar ++
        List.replicate ((3 - bs.length % 3) % 3) '=').filter
          (fun c => c != '=')).map decChar) := rfl
  rw [hopen, hfilter, hmap]
  exact fromSextets_toSextets bs h

/-- A JSON-style value, the type of entries in the `arguments` dict of a
tool call (Python `Any`). -/
inductive JValue where
  | str (s : String)
  | num (n : Int)
  | bool (b : Bool)
  | null
  | arr (xs : List JValue)
  | obj (fields : List (String × JValue))

/-- The pydantic request model: `chart_type`, `title`, `subtitle`,
`data : Dict[str, Any]`, `x_label`, `y_label`, in declaration order. -/
structure ChartRequest where
  chart_type : String
  title : String
  subtitle : String
  data : List (String × JValue)
  x_label : String
  y_label : String

/-- `FASTAPI_BASE_URL` from `main.py`. -/
def FASTAPI_BASE_URL : String := "https://unhcrpyplot.rvibek.com.np/"

/-- Dictionary lookup in the `arguments` dict. -/
def lookupArg (args : List (String × JValue)) (k : String) : Option JValue :=
  (args.find? (fun p => p.1 == k)).map (fun p => p.2)

/-- Modelled from pydantic `BaseModel` validation of a `str` field: the
field must be present; a string is taken as is, a number is coerced to
its decimal string (pydantic v1 coercion); anything else fails.  The
error string describes the failing field. -/
def validateStr (args : List (String × JValue)) (k : String) : Except String String :=
  match lookupArg args k with
  | some (.str s) => .ok s
  | some (.num n) => .ok (toString n)
  | some _ => .error (k ++ ": str type expected")
  | none => .error (k ++ ": field required")

/-- Modelled from pydantic `BaseModel` validation of a `Dict[str, Any]`
field: the field must be present and be an object. -/
def validateDict (args : List (String × JValue)) (k : String) :
    Except String (List (String × JValue)) :=
  match lookupArg args k with
  | some (.obj fields) => .ok fields
  | some _ => .error (k ++ ": value is not a valid dict")
  | none => .error (k ++ ": field required")

/-- `ChartRequest(**arguments)`: validate each declared field.  On
failure pydantic raises a `ValidationError` whose string describes the
failing fields; the model reports the first failing field in
declaration order. -/
def parseChartRequest (args : List (String × JValue)) : Except String ChartRequest :=
  match validateStr args "chart_type" with
  | .error e => .error e
  | .ok ct =>
    match validateStr args "title" with
    | .error e => .error e
    | .ok t =>
      match validateStr args "subtitle" with
      | .error e => .error e
      | .ok st =>
        match validateDict args "data" with
        | .error e => .error e
        | .ok d =>
          match validateStr args "x_label" with
          | .error e => .error e
          | .ok xl =>
            match validateStr args "y_label" with
            | .error e => .error e
            | .ok yl => .ok ⟨ct, t, st, d, xl, yl⟩

/-- An `httpx` response: `status_code`, `content` (raw body bytes) and
`text` (the body decoded to text by httpx). -/
structure Response where
  status_code : Nat
  content : List Nat
  text : String

/-- The outcome of awaiting the single HTTP call: a response, an
`httpx.ConnectError`, or any other exception carrying its `str`. -/
inductive HttpOutcome where
  | resp (r : Response)
  | connectError
  | exn (msg : String)

/-- A Python exception as it flows through the try/except handlers. -/
inductive PyExn where
  | validationError (msg : String)
  | connectError
  | pyError (msg : String)

/-- `str(e)` for the exceptions the generic handler can receive. -/
def PyExn.str : PyExn → String
  | .validationError m => m
  | .connectError => "ConnectError"
  | .pyError m => m

/-- A tool-call content part: `types.TextContent` or
`types.ImageContent`. -/
inductive Content where
  | text (s : String)
  | image (data : String) (mimeType : String)
deriving DecidableEq

/-- An outbound HTTP request as issued by the `httpx.AsyncClient`. -/
structure HttpRequest where
  method : String
  url : String
  timeout : Nat
  jsonBody : Option ChartRequest

/-- The POST issued by `_generate_chart`:
`client.post(f"{FASTAPI_BASE_URL}/plot", json=chart_request.dict(), timeout=30.0)`. -/
def postPlotRequest (chart_request : ChartRequest) : HttpRequest :=
  ⟨"POST", FASTAPI_BASE_URL ++ "/plot", 30, some chart_request⟩

/-- The body of `_generate_chart`'s `try:` block, together with the
trace of HTTP requests issued before the block finished or raised. -/
def generateChartRun (arguments : List (String × JValue)) (outcome : HttpOutcome) :
    Except PyExn (List Content) × List HttpRequest :=
  match parseChartRequest arguments with
  | .error msg => (.error (.validationError msg), [])
  | .ok chart_request =>
    match outcome with
    | .resp response =>
        (if response.status_code == 200 then
          .ok [ .text ("Chart generated successfully: " ++ chart_request.title),
                .image (b64encodeBytes response.content) "image/png" ]
        else
          .ok [ .text ("Error generating chart: " ++ toString response.status_code
                  ++ " - " ++ response.text) ],
         [postPlotRequest chart_request])
    | .connectError => (.error .connectError, [postPlotRequest chart_request])
    | .exn m => (.error (.pyError m), [postPlotRequest chart_request])

/-- The fixed `except httpx.ConnectError` message of `_generate_chart`. -/
def connectErrorText : String :=
  "Error: Could not connect to FastAPI server. Make sure it's accessible at https://unhcrpyplot.rvibek.com.np/"

/-- `_generate_chart(arguments)`: run the try block and apply the two
except handlers (`httpx.ConnectError` first, then `Exception`). -/
def generate_chart (arguments : List (String × JValue)) (outcome : HttpOutcome) :
    List Content :=
  match (generateChartRun arguments outcome).1 with
  | .ok contents => contents
  | .error .connectError => [ .text connectErrorText ]
  | .error e => [ .text ("Error generating chart: " ++ e.str) ]

/-- The body of `_check_fastapi_status`'s `try:` block with its request
trace: `client.get(f"{FASTAPI_BASE_URL}/", timeout=5.0)`. -/
def checkStatusRun (outcome : HttpOutcome) :
    Except PyExn (List Content) × List HttpRequest :=
  let req : HttpRequest := ⟨"GET", FASTAPI_BASE_URL ++ "/", 5, none⟩
  match outcome with
  | .resp response =>
      (if response.status_code == 200 then
        .ok [ .text "FastAPI server is running and accessible" ]
      else
        .ok [ .text ("FastAPI server responded with status: "
                ++ toString response.status_code) ],
       [req])
  | .connectError => (.error .connectError, [req])
  | .exn m => (.error (.pyError m), [req])

/-- `_check_fastapi_status()`: run the try block and apply the two
except handlers. -/
def check_fastapi_status (outcome : HttpOutcome) : List Content :=
  match (checkStatusRun outcome).1 with
  | .ok contents => contents
  | .error .connectError =>
      [ .text "FastAPI server is not accessible. Make sure it's accessible at https://unhcrpyplot.rvibek.com.np/" ]
  | .error e => [ .text ("Error checking FastAPI status: " ++ e.str) ]

/-- `handle_call_tool(name, arguments)`: dispatch on the tool name; an
unknown name raises `ValueError(f"Unknown tool: {name}")`, modelled as
the error branch. -/
def handle_call_tool (name : String) (arguments : List (String × JValue))
    (outcome : HttpOutcome) : Except String (List Content) :=
  if name == "generate_chart" then .ok (generate_chart arguments outcome)
  else if name == "check_fastapi_status" then .ok (check_fastapi_status outcome)
  else .error ("Unknown tool: " ++ name)

/-- `t` occurs as a contiguous substring of `s`. -/
def containsStr (s t : String) : Prop := ∃ p q, s = p ++ t ++ q

theorem strAppend_assoc (a b c : String) : a ++ b ++ c = a ++ (b ++ c) := by
  apply String.ext
  simp [String.data_append, List.append_assoc]

/-- A well-formed `arguments["data"]` value. -/
def sampleData : List (String × JValue) :=
  [("labels", JValue.arr [JValue.str "A", JValue.str "B"]),
   ("values", JValue.arr [JValue.num 1, JValue.num 2])]

/-- A well-formed `arguments` dict for `generate_chart`. -/
def sampleArgs : List (String × JValue) :=
  [("chart_type", JValue.str "bar"), ("title", JValue.str "Population"),
   ("subtitle", JValue.str "2024"), ("x_label", JValue.str "Country"),
   ("y_label", JValue.str "People"), ("data", JValue.obj sampleData)]

/-- The `ChartRequest` that `sampleArgs` validates to. -/
def sampleRequest : ChartRequest :=
  ⟨"bar", "Population", "2024", sampleData, "Country", "People"⟩

/-- `sampleArgs` with the required `data` field omitted. -/
def argsNoData : List (String × JValue) :=
  [("chart_type", JValue.str "bar"), ("title", JValue.str "Population"),
   ("subtitle", JValue.str "2024"), ("x_label", JValue.str "Country"),
   ("y_label", JValue.str "People")]

theorem parse_sampleArgs : parseChartRequest sampleArgs = .ok sampleRequest := rfl

/-- When validation fails, the generic `except Exception` handler turns
`str(e)` into the single error text, and the dispatcher returns it. -/
theorem handle_generate_of_parse_error (args : List (String × JValue)) (msg : String)
    (hp : parseChartRequest args = .error msg) (outcome : HttpOutcome) :
    handle_call_tool "generate_chart" args outcome =
      .ok [Content.text ("Error generating chart: " ++ msg)] := by
  simp [handle_call_tool, generate_chart, generateChartRun, hp, PyExn.str]

/-- C1: for every valid `ChartRequest`, a 200 response with body `B`
yields the text `"Chart generated successfully: {title}"` (with the
request's title) together with an image whose data is base64 of `B`. -/
theorem generate_chart_success (args : List (String × JValue)) (req : ChartRequest)
    (B : List Nat) (bt : String) (h : parseChartRequest args = .ok req) :
    generate_chart args (HttpOutcome.resp ⟨200, B, bt⟩) =
      [ Content.text ("Chart generated successfully: " ++ req.title),
        Content.image (b64encodeBytes B) "image/png" ] := by
  simp [generate_chart, generateChartRun, h]

theorem generate_chart_success_witness :
    generate_chart sampleArgs (HttpOutcome.resp ⟨200, [137, 80], "png"⟩) =
      [ Content.text "Chart generated successfully: Population",
        Content.image (b64encodeBytes [137, 80]) "image/png" ] :=
  generate_chart_success sampleArgs sampleRequest [137, 80] "png" rfl

/-- C2: `generate_chart` never raises: for every arguments dict and
every outcome of the HTTP exchange, the dispatcher returns a result
(never an exception), and every result that did not come from the try
block's success path is a single text part. -/
theorem generate_chart_never_raises (args : List (String × JValue)) (outcome : HttpOutcome) :
    ∃ cs, handle_call_tool "generate_chart" args outcome = Except.ok cs ∧
      ((generateChartRun args outcome).1 = Except.ok cs ∨ ∃ s, cs = [Content.text s]) := by
  have hd : handle_call_tool "generate_chart" args outcome =
      .ok (generate_chart args outcome) := by
    simp [handle_call_tool]
  cases hrun : (generateChartRun args outcome).1 with
  | ok cs =>
      have hgen : generate_chart args outcome = cs := by
        simp [generate_chart, hrun]
      exact ⟨cs, by rw [hd, hgen], Or.inl rfl⟩
  | error e =>
      cases e with
      | validationError m =>
          have hgen : generate_chart args outcome =
              [Content.text ("Error generating chart: " ++ m)] := by
            simp [generate_chart, hrun, PyExn.str]
          exact ⟨_, by rw [hd, hgen], Or.inr ⟨_, rfl⟩⟩
      | connectError =>
          have hgen : generate_chart args outcome = [Content.text connectErrorText] := by
            simp [generate_chart, hrun]
          exact ⟨_, by rw [hd, hgen], Or.inr ⟨_, rfl⟩⟩
      | pyError m =>
          have hgen : generate_chart args outcome =
              [Content.text ("Error generating chart: " ++ m)] := by
            simp [generate_chart, hrun, PyExn.str]
          exact ⟨_, by rw [hd, hgen], Or.inr ⟨_, rfl⟩⟩

/-- C3: a non-200 response with status `S` and body text `T` yields a
single text result containing both `S` and `T`. -/
theorem generate_chart_non200 (args : List (String × JValue)) (req : ChartRequest)
    (resp : Response) (h : parseChartRequest args = .ok req)
    (hs : resp.status_code ≠ 200) :
    ∃ t, generate_chart args (HttpOutcome.resp resp) = [Content.text t] ∧
      containsStr t (toString resp.status_code) ∧ containsStr t resp.text := by
  refine ⟨"Error generating chart: " ++ toString resp.status_code ++ " - " ++ resp.text,
    ?_, ?_, ?_⟩
  · simp [generate_chart, generateChartRun, h, hs]
  · exact ⟨"Error generating chart: ", " - " ++ resp.text, strAppend_assoc _ _ _⟩
  · exact ⟨"Error generating chart: " ++ toString resp.status_code ++ " - ", "",
      (String.append_empty _).symm⟩

theorem generate_chart_non200_witness :
    ∃ t, generate_chart sampleArgs (HttpOutcome.resp ⟨404, [], "Not Found"⟩) =
      [Content.text t] ∧ containsStr t (toString (404 : Nat)) ∧
      containsStr t "Not Found" :=
  generate_chart_non200 sampleArgs sampleRequest ⟨404, [], "Not Found"⟩ rfl (by decide)

/-- C4: a connection failure yields the fixed message, which names the
configured base URL, for every valid request. -/
theorem generate_chart_connect_error (args : List (String × JValue)) (req : ChartRequest)
    (h : parseChartRequest args = .ok req) :
    generate_chart args HttpOutcome.connectError = [Content.text connectErrorText] ∧
      containsStr connectErrorText FASTAPI_BASE_URL := by
  refine ⟨?_, ?_⟩
  · simp [generate_chart, generateChartRun, h]
  · exact ⟨"Error: Could not connect to FastAPI server. Make sure it's accessible at ",
      "", by decide⟩

theorem generate_chart_connect_error_witness :
    generate_chart sampleArgs HttpOutcome.connectError = [Content.text connectErrorText] ∧
      containsStr connectErrorText FASTAPI_BASE_URL :=
  generate_chart_connect_error sampleArgs sampleRequest rfl

/-- C5 counterexample: on a 200 response `check_fastapi_status` yields
the text `"FastAPI server is running and accessible"`, which is not the
text `"server is running and accessible"` the claim states. -/
theorem check_status_exact_text_cex :
    check_fastapi_status (HttpOutcome.resp ⟨200, [], ""⟩) =
      [Content.text "FastAPI server is running and accessible"] ∧
    (("FastAPI server is running and accessible" ==
      "server is running and accessible") = false) := by
  exact ⟨rfl, by decide⟩

/-- C5 (amended): on a 200 response `check_fastapi_status` yields
exactly the text `"FastAPI server is running and accessible"` (which
contains `"server is running and accessible"`); on a 503 response it
yields a text containing `"503"`. -/
theorem check_status_200_503 :
    (∀ B bt, check_fastapi_status (HttpOutcome.resp ⟨200, B, bt⟩) =
        [Content.text "FastAPI server is running and accessible"] ∧
      containsStr "FastAPI server is running and accessible"
        "server is running and accessible") ∧
    (∀ B bt, ∃ m, check_fastapi_status (HttpOutcome.resp ⟨503, B, bt⟩) =
        [Content.text m] ∧ containsStr m "503") := by
  refine ⟨fun B bt => ⟨rfl, "FastAPI ", "", by decide⟩, fun B bt => ?_⟩
  refine ⟨"FastAPI server responded with status: " ++ toString (503 : Nat), rfl, ?_⟩
  exact ⟨"FastAPI server responded with status: ", "", by decide⟩

/-- The fields the tool's input schema marks `"required"`, which are
exactly the declared `ChartRequest` fields. -/
def requiredFields : List String :=
  ["chart_type", "title", "subtitle", "data", "x_label", "y_label"]

/-- A successful validation needs every required field present in the
arguments dict. -/
theorem parse_ok_present (args : List (String × JValue)) (req : ChartRequest)
    (hp : parseChartRequest args = .ok req) (k : String) (hk : k ∈ requiredFields) :
    lookupArg args k ≠ none := by
  intro hnone
  unfold parseChartRequest at hp
  cases h1 : validateStr args "chart_type" with
  | error e => simp [h1] at hp
  | ok ct =>
    simp only [h1] at hp
    cases h2 : validateStr args "title" with
    | error e => simp [h2] at hp
    | ok t =>
      simp only [h2] at hp
      cases h3 : validateStr args "subtitle" with
      | error e => simp [h3] at hp
      | ok st =>
        simp only [h3] at hp
        cases h4 : validateDict args "data" with
        | error e => simp [h4] at hp
        | ok d =>
          simp only [h4] at hp
          cases h5 : validateStr args "x_label" with
          | error e => simp [h5] at hp
          | ok xl =>
            simp only [h5] at hp
            cases h6 : validateStr args "y_label" with
            | error e => simp [h6] at hp
            | ok yl =>
              simp only [requiredFields, List.mem_cons, List.not_mem_nil,
                or_false] at hk
              rcases hk with rfl | rfl | rfl | rfl | rfl | rfl
              · simp [validateStr, hnone] at h1
              · simp [validateStr, hnone] at h2
              · simp [validateStr, hnone] at h3
              · simp [validateDict, hnone] at h4
              · simp [validateStr, hnone] at h5
              · simp [validateStr, hnone] at h6

/-- C6: an arguments dict missing any required field (`data`, `title`,
...) makes the pydantic validation fail; the failure is absorbed and
surfaced through the dispatcher as a single text result containing the
validation failure description, never as an exception. -/
theorem generate_chart_missing_field (args : List (String × JValue)) (k : String)
    (hk : k ∈ requiredFields) (h : lookupArg args k = none) :
    ∃ msg, parseChartRequest args = Except.error msg ∧
      ∀ outcome, handle_call_tool "generate_chart" args outcome =
          Except.ok [Content.text ("Error generating chart: " ++ msg)] ∧
        containsStr ("Error generating chart: " ++ msg) msg := by
  cases hp : parseChartRequest args with
  | ok req => exact absurd h (parse_ok_present args req hp k hk)
  | error msg =>
      exact ⟨msg, rfl, fun outcome =>
        ⟨handle_generate_of_parse_error args msg hp outcome,
         "Error generating chart: ", "", (String.append_empty _).symm⟩⟩

/-- `sampleArgs` with the required `title` field omitted (and `data`
still present). -/
def argsNoTitle : List (String × JValue) :=
  [("chart_type", JValue.str "bar"), ("subtitle", JValue.str "2024"),
   ("x_label", JValue.str "Country"), ("y_label", JValue.str "People"),
   ("data", JValue.obj sampleData)]

theorem generate_chart_missing_field_witness :
    (∃ msg, parseChartRequest argsNoTitle = Except.error msg ∧
      ∀ outcome, handle_call_tool "generate_chart" argsNoTitle outcome =
          Except.ok [Content.text ("Error generating chart: " ++ msg)] ∧
        containsStr ("Error generating chart: " ++ msg) msg) ∧
    (∃ msg, parseChartRequest argsNoData = Except.error msg ∧
      ∀ outcome, handle_call_tool "generate_chart" argsNoData outcome =
          Except.ok [Content.text ("Error generating chart: " ++ msg)] ∧
        containsStr ("Error generating chart: " ++ msg) msg) :=
  ⟨generate_chart_missing_field argsNoTitle "title" (by decide) rfl,
   generate_chart_missing_field argsNoData "data" (by decide) rfl⟩

/-- C7: base64 round-trip: decoding the image payload returned for a
200 response with byte body `B` reproduces `B` exactly. -/
theorem generate_chart_b64_roundtrip (args : List (String × JValue)) (req : ChartRequest)
    (B : List Nat) (bt : String) (h : parseChartRequest args = .ok req)
    (hB : ∀ x ∈ B, x < 256) :
    ∃ t d, generate_chart args (HttpOutcome.resp ⟨200, B, bt⟩) =
      [Content.text t, Content.image d "image/png"] ∧ b64decodeString d = B := by
  refine ⟨"Chart generated successfully: " ++ req.title, b64encodeBytes B, ?_, ?_⟩
  · simp [generate_chart, generateChartRun, h]
  · exact b64_roundtrip B hB

theorem generate_chart_b64_roundtrip_witness :
    ∃ t d, generate_chart sampleArgs
        (HttpOutcome.resp ⟨200, [137, 80, 78, 71, 13, 10], "png"⟩) =
      [Content.text t, Content.image d "image/png"] ∧
      b64decodeString d = [137, 80, 78, 71, 13, 10] :=
  generate_chart_b64_roundtrip sampleArgs sampleRequest [137, 80, 78, 71, 13, 10]
    "png" rfl (by decide)

/-- C8: every invocation that reaches the HTTP layer (validation
succeeded) issues exactly one outbound request, a POST to
`{FASTAPI_BASE_URL}/plot`, whatever the outcome — no retry. -/
theorem generate_chart_single_post (args : List (String × JValue)) (req : ChartRequest)
    (h : parseChartRequest args = .ok req) (outcome : HttpOutcome) :
    (generateChartRun args outcome).2 = [postPlotRequest req] ∧
      (postPlotRequest req).method = "POST" ∧
      (postPlotRequest req).url = FASTAPI_BASE_URL ++ "/plot" := by
  refine ⟨?_, rfl, rfl⟩
  cases outcome <;> simp [generateChartRun, h]

theorem generate_chart_single_post_witness :
    (generateChartRun sampleArgs HttpOutcome.connectError).2 =
      [postPlotRequest sampleRequest] ∧
      (postPlotRequest sampleRequest).method = "POST" ∧
      (postPlotRequest sampleRequest).url = FASTAPI_BASE_URL ++ "/plot" :=
  generate_chart_single_post sampleArgs sampleRequest rfl HttpOutcome.connectError

/-- C9: the dispatcher raises `ValueError(f"Unknown tool: {name}")` for
every tool name other than the two registered ones, instead of
returning a textual result. -/
theorem handle_call_tool_unknown (name : String) (args : List (String × JValue))
    (outcome : HttpOutcome) (h1 : name ≠ "generate_chart")
    (h2 : name ≠ "check_fastapi_status") :
    handle_call_tool name args outcome = Except.error ("Unknown tool: " ++ name) := by
  simp [handle_call_tool, h1, h2]

theorem handle_call_tool_unknown_witness :
    handle_call_tool "foo" [] HttpOutcome.connectError =
      Except.error ("Unknown tool: " ++ "foo") :=
  handle_call_tool_unknown "foo" [] HttpOutcome.connectError (by decide) (by decide)

/-- C10: on every path `generate_chart` returns either exactly a text
part followed by an image part (success) or exactly one text part, and
`check_fastapi_status` always returns exactly one text part. -/
theorem result_shape_invariant (args : List (String × JValue))
    (outcome outcome2 : HttpOutcome) :
    ((∃ t d, generate_chart args outcome =
        [Content.text t, Content.image d "image/png"]) ∨
      (∃ t, generate_chart args outcome = [Content.text t])) ∧
    (∃ t, check_fastapi_status outcome2 = [Content.text t]) := by
  constructor
  · cases hp : parseChartRequest args with
    | error msg =>
        exact Or.inr ⟨"Error generating chart: " ++ msg,
          by simp [generate_chart, generateChartRun, hp, PyExn.str]⟩
    | ok req =>
      cases outcome with
      | resp r =>
          by_cases h200 : r.status_code = 200
          · exact Or.inl ⟨"Chart generated successfully: " ++ req.title,
              b64encodeBytes r.content,
              by simp [generate_chart, generateChartRun, hp, h200]⟩
          · exact Or.inr ⟨"Error generating chart: " ++ toString r.status_code
              ++ " - " ++ r.text,
              by simp [generate_chart, generateChartRun, hp, h200]⟩
      | connectError =>
          exact Or.inr ⟨connectErrorText, by simp [generate_chart, generateChartRun, hp]⟩
      | exn m =>
          exact Or.inr ⟨"Error generating chart: " ++ m,
            by simp [generate_chart, generateChartRun, hp, PyExn.str]⟩
  · cases outcome2 with
    | resp r =>
        by_cases h200 : r.status_code = 200
        · exact ⟨"FastAPI server is running and accessible",
            by simp [check_fastapi_status, checkStatusRun, h200]⟩
        · exact ⟨"FastAPI server responded with status: " ++ toString r.status_code,
            by simp [check_fastapi_status, checkStatusRun, h200]⟩
    | connectError =>
        exact ⟨"FastAPI server is not accessible. Make sure it's accessible at https://unhcrpyplot.rvibek.com.np/",
          by simp [check_fastapi_status, checkStatusRun]⟩
    | exn m =>
        exact ⟨"Error checking FastAPI status: " ++ m,
          by simp [check_fastapi_status, checkStatusRun, PyExn.str]⟩
